import Mathlib

/-!
Shallow embedding of the TASK-FLIX client/backend connectivity and
fallback-generation pipeline:

* `connectionUtils` (endpoint candidate generation, reachability probing,
  backend URL discovery), and
* `aiService` (the Generation Gateway: `callApi` with its response cache,
  `extractResponseData`, the three public gateway operations and the local
  fallback generators).

JavaScript dynamic values are modelled by the inductive `JVal` (JSON values
plus `undefined`); machine behaviour such as property access throwing a
`TypeError` on `null`/`undefined`, truthiness, template-literal string
coercion and `JSON.stringify` is made explicit.  Fallible code returns
`Except JsErr`.  Network, clock, storage and randomness are supplied as
explicit oracle parameters, and every HTTP request performed during a call
is counted so that frame conditions ("zero HTTP requests") are provable.
-/

namespace TaskFlix

/-- A thrown JavaScript error.  `typeError` stands for the TypeErrors the
runtime raises (property access or method call on `null`/`undefined`/a
value lacking the method); `jsError` is an `Error` constructed by the
program code with the given message. -/
inductive JsErr where
  | jsError (msg : String)
  | typeError (msg : String)

/-- JavaScript values as the pipeline manipulates them: JSON values plus
`undefined`.  Numbers are modelled as integers (no claim in scope involves
fractional values). -/
inductive JVal where
  | undefined
  | null
  | bool (b : Bool)
  | num (n : Int)
  | str (s : String)
  | arr (elems : List JVal)
  | obj (fields : List (String × JVal))

/-- First binding of a key in an object's field list (a parsed JS object has
no duplicate keys). -/
def jLookup : List (String × JVal) → String → Option JVal
  | [], _ => none
  | (k, v) :: rest, name => if k = name then some v else jLookup rest name

/-- JS property access `v[name]`: throws a TypeError on `null`/`undefined`,
yields `undefined` for a missing field or a non-object receiver (built-in
properties of primitives are not modelled; the fields the code reads are
never built-ins). -/
def jMember (v : JVal) (name : String) : Except JsErr JVal :=
  match v with
  | .null => .error (.typeError "Cannot read properties of null")
  | .undefined => .error (.typeError "Cannot read properties of undefined")
  | .obj fs => .ok ((jLookup fs name).getD .undefined)
  | _ => .ok .undefined

/-- Property access in positions where the receiver is already known truthy
(so never `null`/`undefined`): total variant of `jMember`. -/
def jGetD (v : JVal) (name : String) : JVal :=
  match v with
  | .obj fs => (jLookup fs name).getD .undefined
  | _ => .undefined

/-- JS truthiness. -/
def jTruthy : JVal → Bool
  | .undefined => false
  | .null => false
  | .bool b => b
  | .num n => n != 0
  | .str s => s ≠ ""
  | .arr _ => true
  | .obj _ => true

/-- `a || b`. -/
def jOr (a b : JVal) : JVal := if jTruthy a then a else b

/-- `typeof v === 'object'` (true for objects, arrays and `null`). -/
def jIsObjectType : JVal → Bool
  | .obj _ => true
  | .arr _ => true
  | .null => true
  | _ => false

/-- `v.toLowerCase()`: only strings have the method; any other receiver
raises a TypeError (on `null`/`undefined` the property access itself
throws, otherwise the call of a non-function does). -/
def jToLowerCase (v : JVal) : Except JsErr String :=
  match v with
  | .str s => .ok (String.mk (s.data.map Char.toLower))
  | _ => .error (.typeError "toLowerCase is not a function")

/-- Template-literal / `String()` coercion of a value. -/
def jToDisplayString : JVal → String
  | .str s => s
  | .num n => toString n
  | .bool b => if b then "true" else "false"
  | .null => "null"
  | .undefined => "undefined"
  | .obj _ => "[object Object]"
  | .arr elems => arrDisplay elems
where
  /-- `Array.prototype.toString`: elements joined by commas, with
  `null`/`undefined` elements shown empty. -/
  arrDisplay : List JVal → String
  | [] => ""
  | x :: rest =>
    let s :=
      match x with
      | .null => ""
      | .undefined => ""
      | v => jToDisplayString v
    match rest with
    | [] => s
    | _ => s ++ "," ++ arrDisplay rest

/-- Minimal JSON escaping of the characters that would break a quoted
string (enough for the cache-key serialisation the code performs). -/
def escapeJsonChar (c : Char) : String :=
  if c = '"' then "\\\"" else if c = '\\' then "\\\\" else String.mk [c]

def escapeJson (s : String) : String :=
  s.toList.foldr (fun c acc => escapeJsonChar c ++ acc) ""

mutual

/-- `JSON.stringify` of a value (top level; `undefined` only ever occurs
below an object field, where it is dropped, or an array element, where it
prints as `null`). -/
def jsonStringify : JVal → String
  | .undefined => "null"
  | .null => "null"
  | .bool b => if b then "true" else "false"
  | .num n => toString n
  | .str s => "\"" ++ escapeJson s ++ "\""
  | .arr elems => "[" ++ stringifyElems elems ++ "]"
  | .obj fields => "\x7b" ++ stringifyFields fields ++ "\x7d"

def stringifyElems : List JVal → String
  | [] => ""
  | [x] => jsonStringify x
  | x :: rest => jsonStringify x ++ "," ++ stringifyElems rest

/-- Object fields; a field whose value is `undefined` is omitted, exactly
as `JSON.stringify` omits it. -/
def stringifyFields : List (String × JVal) → String
  | [] => ""
  | (k, v) :: rest =>
    match v with
    | .undefined => stringifyFields rest
    | _ =>
      let s := "\"" ++ escapeJson k ++ "\":" ++ jsonStringify v
      let r := stringifyFields rest
      if r = "" then s else s ++ "," ++ r

end

/-- Whether `pat` occurs at the head of `l`. -/
def listStartsWith : List Char → List Char → Bool
  | [], _ => true
  | _ :: _, [] => false
  | p :: ps, c :: cs => p == c && listStartsWith ps cs

/-- Whether `pat` occurs contiguously anywhere in `l`
(JS `String.prototype.includes`). -/
def listContainsSeq (pat : List Char) : List Char → Bool
  | [] => pat.isEmpty
  | c :: cs => listStartsWith pat (c :: cs) || listContainsSeq pat cs

/-- `haystack.includes(needle)`. -/
def strIncludes (haystack needle : String) : Bool :=
  listContainsSeq needle.toList haystack.toList

/-- `[...new Set(urls)]`: deduplication keeping the first occurrence of
each element, preserving first-seen order. -/
def dedupFirstAux : List String → List String → List String
  | [], _ => []
  | x :: xs, seen =>
    if x ∈ seen then dedupFirstAux xs seen else x :: dedupFirstAux xs (x :: seen)

def dedupFirst (l : List String) : List String := dedupFirstAux l []

/-! ## connectionUtils: candidate generation, probing, discovery -/

/-- The runtime facts `getPossibleServerUrls` consults: the
`EXPO_PUBLIC_API_URL` environment variable (a string when set),
`Platform.OS`, and the Expo development-host string as finally resolved by
the try/catch over `Constants.expoConfig?.hostUri` /
`Constants.manifest.debuggerHost` / `Constants.manifest.hostUri`
(`none` when none of those sources yields a value or the access threw). -/
structure UrlEnv where
  configuredUrl : Option String
  platformOS : String
  devServerHost : Option String

/-- The candidate list exactly as `getPossibleServerUrls` builds it before
the final `[...new Set(urls)]`.  An empty configured URL or an empty
development-host string is falsy in JS and therefore skipped. -/
def possibleServerUrlsRaw (env : UrlEnv) : List String :=
  let urls : List String :=
    match env.configuredUrl with
    | some u => if u ≠ "" then [u] else []
    | none => []
  let urls := urls ++ ["http://localhost:3000/api", "http://127.0.0.1:3000/api"]
  let urls := urls ++ (if env.platformOS = "android" then ["http://10.0.2.2:3000/api"] else [])
  let urls := urls ++ (if env.platformOS = "ios" then ["http://localhost:3000/api"] else [])
  urls ++
    (match env.devServerHost with
     | some devHost =>
       if devHost = "" then
         ["http://192.168.1.1:3000/api", "http://192.168.0.1:3000/api"]
       else
         let host := ((devHost.splitOn ":").headD "")
         if host ≠ "" && host ≠ "localhost" && host ≠ "127.0.0.1" then
           ["http://" ++ host ++ ":3000/api"]
         else []
     | none => ["http://192.168.1.1:3000/api", "http://192.168.0.1:3000/api"])

/-- `getPossibleServerUrls`: the raw list, deduplicated preserving
first-seen order. -/
def getPossibleServerUrls (env : UrlEnv) : List String :=
  dedupFirst (possibleServerUrlsRaw env)

/-- Outcome of one health-check HTTP GET against a candidate:
`networkError` covers a thrown fetch failure (connection refused, DNS
failure, or the 3000 ms abort); otherwise the response arrives with a
status (`ok`) and a body that parses as JSON (`some` value) or does not
(`none`, so `response.json()` throws). -/
inductive ProbeOutcome where
  | networkError
  | httpResponse (ok : Bool) (body : Option JVal)

/-- The health-check URL `isUrlReachable` constructs from a candidate. -/
def healthCheckUrl (url : String) : String :=
  if url.endsWith "/api" then url ++ "/health" else url ++ "/api/health"

/-- The body of `isUrlReachable`'s try block: `true` on an ok status with a
JSON-parsable body, `false` on a non-ok status; a fetch failure or a
`response.json()` parse failure throws. -/
def isUrlReachableBody (url : String) (o : ProbeOutcome) : Except JsErr Bool :=
  let _healthUrl := healthCheckUrl url
  match o with
  | .networkError => .error (.jsError "Network request failed")
  | .httpResponse ok body =>
    if ok then
      match body with
      | some _ => .ok true
      | none => .error (.jsError "JSON Parse error")
    else .ok false

/-- `isUrlReachable`: the try body with its catch-all returning `false`. -/
def isUrlReachable (url : String) (o : ProbeOutcome) : Bool :=
  match isUrlReachableBody url o with
  | .ok b => b
  | .error _ => false

/-- The world `discoverBackendUrl` runs against: the persisted
`working_backend_url` read (which may itself throw a storage error),
device-level connectivity (`NetInfo.fetch().isConnected`), the probe
outcome for each URL, and the environment feeding the candidate
generator. -/
structure DiscoverEnv where
  cachedUrlRead : Except JsErr (Option String)
  isConnected : Bool
  probe : String → ProbeOutcome
  urlEnv : UrlEnv

/-- What one `discoverBackendUrl` invocation did: its return value, the
cached URL it probed (if any), the candidate list it generated (`[]` when
the generator was never invoked), the candidates it actually probed in
order, and the `working_backend_url` value it persisted (if any). -/
structure DiscoverOutcome where
  result : Option String
  cachedProbed : List String
  candidateUrls : List String
  candidatesProbed : List String
  cacheWrite : Option String

/-- Probe candidates in order, stopping at the first reachable one;
returns the winner (if any) and the list of URLs probed. -/
def probeCandidates (probe : String → ProbeOutcome) : List String → Option String × List String
  | [] => (none, [])
  | u :: rest =>
    if isUrlReachable u (probe u) then (some u, [u])
    else
      let (r, ps) := probeCandidates probe rest
      (r, u :: ps)

/-- `discoverBackendUrl`: try the persisted URL first (a storage read
error is caught and treated as no cached URL; an empty cached string is
falsy and skipped), then short-circuit on no device connectivity, then
generate and probe candidates, persisting the first reachable one. -/
def discoverBackendUrl (env : DiscoverEnv) : DiscoverOutcome :=
  let cachedStep : Option String × List String :=
    match env.cachedUrlRead with
    | .ok (some cachedUrl) =>
      if cachedUrl ≠ "" then
        if isUrlReachable cachedUrl (env.probe cachedUrl) then (some cachedUrl, [cachedUrl])
        else (none, [cachedUrl])
      else (none, [])
    | .ok none => (none, [])
    | .error _ => (none, [])
  match cachedStep with
  | (some cachedUrl, probed) =>
    { result := some cachedUrl, cachedProbed := probed, candidateUrls := [],
      candidatesProbed := [], cacheWrite := none }
  | (none, probed) =>
    if !env.isConnected then
      { result := none, cachedProbed := probed, candidateUrls := [],
        candidatesProbed := [], cacheWrite := none }
    else
      let urls := getPossibleServerUrls env.urlEnv
      let (winner, ps) := probeCandidates env.probe urls
      { result := winner, cachedProbed := probed, candidateUrls := urls,
        candidatesProbed := ps, cacheWrite := winner }

/-- `getApiUrl` in the case `callApi` uses it (an explicit non-null base
URL, so no further discovery): normalise the endpoint and splice in the
`/api` segment as needed. -/
def getApiUrlWithBase (endpoint : String) (backendUrl : String) : String :=
  let normalizedEndpoint :=
    if endpoint.startsWith "/" then (endpoint.drop 1) else endpoint
  if backendUrl.endsWith "/api" then backendUrl ++ "/" ++ normalizedEndpoint
  else if backendUrl.endsWith "/" then backendUrl ++ "api/" ++ normalizedEndpoint
  else backendUrl ++ "/api/" ++ normalizedEndpoint

/-! ## aiService: configuration, response cache, `callApi` -/

/-- The module-level configuration flags of `aiService`, as read once from
the environment: `USE_BACKEND_GENERATION`, `ENABLE_API_CACHE`, and
`CACHE_EXPIRY` in milliseconds. -/
structure ApiConfig where
  useBackendGeneration : Bool
  enableApiCache : Bool
  cacheExpiry : Nat

/-- `CACHE_EXPIRY` when `EXPO_PUBLIC_CACHE_EXPIRY_HOURS` is unset:
24 hours in milliseconds. -/
def defaultCacheExpiryMs : Nat := 24 * 60 * 60 * 1000

/-- A value persisted under a cache key, as the cache-read code sees it
after `AsyncStorage.getItem`: either a record that `JSON.parse` yields
(`data` plus its write `timestamp` in epoch-ms), or text whose parse
throws (`corrupt`, treated as a miss by the catch around the read). -/
inductive StoredVal where
  | entry (data : JVal) (timestamp : Nat)
  | corrupt

/-- The mutable state `callApi` touches: the persisted cache namespace
(`taskflick_cache_*` keys) and the module-level `discoveredBackendUrl`. -/
structure ApiState where
  storage : String → Option StoredVal
  discoveredUrl : Option String

/-- Point update of the cache storage (`AsyncStorage.setItem`). -/
def updStorage (σ : String → Option StoredVal) (k : String) (v : StoredVal) :
    String → Option StoredVal :=
  fun k2 => if k2 = k then some v else σ k2

/-- Outcome of the single main-generation `fetch`: a thrown network error,
or a response with a status (`ok`) and a body that parses as JSON (`some`)
or does not (`none`). -/
inductive FetchOutcome where
  | networkError
  | httpResponse (ok : Bool) (body : Option JVal)

/-- The world one `callApi` invocation runs against: the current clock
(`Date.now()` in epoch-ms), the outcome of the main `fetch` if one is
made, and the environment `discoverBackendUrl` would run against if
invoked. -/
structure ApiEnv where
  now : Nat
  fetchOutcome : FetchOutcome
  denv : DiscoverEnv

/-- The cache key `callApi` derives from the endpoint and the serialised
request body. -/
def cacheKeyFor (endpoint : String) (body : Option JVal) : String :=
  "taskflick_cache_" ++ endpoint ++ "_" ++
    (match body with
     | some b => jsonStringify b
     | none => "")

/-- `extractResponseData`: normalise a response shape.  A `success: true`
response yields its nested `data` field when that is defined, otherwise
the response with `success` and `message` stripped; anything else is
returned as is.  The first property access throws on a `null`/`undefined`
response, exactly as in JS. -/
def extractResponseData (response : JVal) : Except JsErr JVal := do
  let succ ← jMember response "success"
  match succ with
  | .bool true =>
    let d ← jMember response "data"
    match d with
    | .undefined =>
      match response with
      | .obj fs => return .obj (fs.filter (fun p => !(p.1 == "success" || p.1 == "message")))
      | _ => return response
    | _ => return d
  | _ => return response

/-- What one `callApi` invocation produced: the returned (or thrown)
value, the state it left behind, and the number of HTTP requests it made
(reachability probes during discovery included). -/
structure ApiOutcome where
  result : Except JsErr JVal
  state : ApiState
  fetches : Nat

/-- `callApi`: the gateway's fetch helper with caching.  Mirrors the JS
control flow: disabled-configuration throw; cache read (bypassed for the
`motivational-message` endpoint, expiry judged by
`Date.now() - timestamp < CACHE_EXPIRY`, read errors caught and treated as
a miss); backend discovery when no URL is held; the main `fetch`; the
non-ok-status throw; the body parse; the conditional cache write (its own
errors swallowed); and the normalised return.  Every throw escapes to the
caller — the outer catch only logs and rethrows. -/
def callApi (cfg : ApiConfig) (env : ApiEnv) (st : ApiState)
    (endpoint : String) (method : String) (body : Option JVal) : ApiOutcome :=
  let _ := method
  if !cfg.useBackendGeneration then
    { result := .error (.jsError "Backend generation disabled by configuration"),
      state := st, fetches := 0 }
  else
    let cacheKey := cacheKeyFor endpoint body
    let cachedHit : Option JVal :=
      if cfg.enableApiCache && endpoint ≠ "motivational-message" then
        match st.storage cacheKey with
        | some (.entry data timestamp) =>
          if (env.now : Int) - (timestamp : Int) < (cfg.cacheExpiry : Int) then some data
          else none
        | some .corrupt => none
        | none => none
      else none
    match cachedHit with
    | some data => { result := .ok data, state := st, fetches := 0 }
    | none =>
      let discovery : Option String × ApiState × Nat :=
        match st.discoveredUrl with
        | some u => (some u, st, 0)
        | none =>
          let d := discoverBackendUrl env.denv
          (d.result, { st with discoveredUrl := d.result },
           d.cachedProbed.length + d.candidatesProbed.length)
      match discovery with
      | (none, st1, probes) =>
        { result := .error (.jsError "Cannot connect to backend server"),
          state := st1, fetches := probes }
      | (some backendUrl, st1, probes) =>
        let _fullUrl := getApiUrlWithBase endpoint backendUrl
        match env.fetchOutcome with
        | .networkError =>
          { result := .error (.jsError "Network request failed"),
            state := st1, fetches := probes + 1 }
        | .httpResponse ok bodyJson =>
          if !ok then
            { result := .error (.jsError "API error"), state := st1, fetches := probes + 1 }
          else
            match bodyJson with
            | none =>
              { result := .error (.jsError "JSON Parse error"),
                state := st1, fetches := probes + 1 }
            | some result =>
              -- the caching condition reads `result.success` first, which
              -- throws on a null body before anything else happens
              match jMember result "success" with
              | .error e => { result := .error e, state := st1, fetches := probes + 1 }
              | .ok succ =>
                let shouldCache := cfg.enableApiCache && endpoint ≠ "motivational-message" &&
                  (match succ with
                   | .undefined => true
                   | .bool true => true
                   | _ => false)
                let st2 :=
                  if shouldCache then
                    match extractResponseData result with
                    | .ok dataToCache =>
                      { st1 with storage :=
                          updStorage st1.storage cacheKey (.entry dataToCache env.now) }
                    | .error _ => st1
                  else st1
                match extractResponseData result with
                | .ok d => { result := .ok d, state := st2, fetches := probes + 1 }
                | .error e => { result := .error e, state := st2, fetches := probes + 1 }

/-! ## aiService: local fallback generators -/

/-- `capitalize`: empty-or-non-string input yields `""` (the JS guard
`!str || typeof str !== 'string'`), otherwise the first character is
upper-cased. -/
def capitalize (v : JVal) : String :=
  match v with
  | .str s =>
    match s.data with
    | [] => ""
    | c :: cs => String.mk (c.toUpper :: cs)
  | _ => ""

/-- The thematic word `fallbackGenerateQuestTitle` derives from the
lower-cased category. -/
def questTheme (catLower : String) : String :=
  if catLower = "work" then "Guild"
  else if catLower = "education" || catLower = "study" || catLower = "learning" then "Arcane"
  else if catLower = "fitness" || catLower = "health" then "Warrior"
  else if catLower = "home" || catLower = "chores" then "Village"
  else "Adventure"

/-- The five quest-title templates, already interpolated with the theme
and the capitalised task title. -/
def questTitleTemplates (theme cap : String) : List String :=
  ["The " ++ theme ++ " " ++ cap,
   theme ++ " Mission: " ++ cap,
   theme ++ "'s Call: " ++ cap,
   "The " ++ theme ++ " Seeker's " ++ cap,
   cap ++ " of the " ++ theme ++ " Realm"]

/-- `fallbackGenerateQuestTitle`: `category.toLowerCase()` throws a
TypeError on a non-string category; otherwise one of five templates is
chosen by `Math.floor(Math.random() * 5)`, supplied here as the oracle
`randIdx`. -/
def fallbackGenerateQuestTitle (taskTitle category : JVal) (randIdx : Fin 5) :
    Except JsErr String :=
  match jToLowerCase category with
  | .error e => .error e
  | .ok catLower =>
    .ok ((questTitleTemplates (questTheme catLower) (capitalize taskTitle)).getD randIdx.val "")

/-- The per-category base narratives, in the object's key order. -/
def categoryNarratives : List (String × String) :=
  [("work", "The Guild requires your expertise. Complete this task to gain favor with the Guild Masters."),
   ("education", "Ancient knowledge awaits your discovery. Master this arcane challenge to expand your wisdom."),
   ("learning", "Ancient knowledge awaits your discovery. Master this arcane challenge to expand your wisdom."),
   ("fitness", "A warrior's strength comes from consistent training. Push through this challenge to enhance your power."),
   ("health", "A warrior's strength comes from consistent training. Push through this challenge to enhance your power."),
   ("home", "The village needs your attention. Restore order to this area to improve the prosperity of your domain."),
   ("chores", "The village needs your attention. Restore order to this area to improve the prosperity of your domain."),
   ("personal", "Your personal quest awaits. Success will bring you closer to fulfilling your destiny.")]

/-- The per-difficulty modifier sentences. -/
def difficultyModifiers : List (String × String) :=
  [("mini", "This is but a small step in your journey, yet important nonetheless."),
   ("normal", "A worthy challenge that will test your resolve and determination."),
   ("boss", "Beware, adventurer! This formidable task will require all your skill and courage to overcome.")]

/-- Association-list first lookup (plain JS own-property read). -/
def assocLookup : List (String × String) → String → Option String
  | [], _ => none
  | (k, v) :: rest, name => if k = name then some v else assocLookup rest name

/-- `fallbackGenerateQuestNarrative`: the first category key that is a
substring of the lower-cased category (default `personal`), concatenated
with the difficulty modifier (default `normal`'s; a non-string difficulty
coerces to a property key that matches no modifier).  `taskTitle` is
accepted but never used by the source.  Throws on a non-string
category. -/
def fallbackGenerateQuestNarrative (taskTitle category difficulty : JVal) :
    Except JsErr String :=
  let _ := taskTitle
  match jToLowerCase category with
  | .error e => .error e
  | .ok catLower =>
    let baseCategory :=
      ((categoryNarratives.map Prod.fst).find? (fun key => strIncludes catLower key)).getD
        "personal"
    let base := (assocLookup categoryNarratives baseCategory).getD ""
    let modifier :=
      match difficulty with
      | .str s => (assocLookup difficultyModifiers s).getD
          "A worthy challenge that will test your resolve and determination."
      | _ => "A worthy challenge that will test your resolve and determination."
    .ok (base ++ " " ++ modifier)

/-- The ten canned motivational messages. -/
def motivationalMessages : List String :=
  ["The path to greatness is paved with completed quests!",
   "Even the mightiest heroes began with small victories. Keep going!",
   "Your quest log grows more impressive each day. The kingdom notices your deeds!",
   "The greatest adventure is the one that transforms you. Onward!",
   "A true hero knows that persistence unlocks all achievements.",
   "Your journey inspires others around you. Continue your noble path!",
   "Each completed quest brings you closer to legendary status.",
   "The rewards of consistency are waiting just over the horizon.",
   "Your dedication to your quests shapes your destiny.",
   "Today's small victory is tomorrow's epic tale!"]

/-- `fallbackGenerateMotivationalMessage`: a uniformly random pick from
the fixed list, the random index supplied as an oracle. -/
def fallbackGenerateMotivationalMessage (randIdx : Fin 10) : String :=
  motivationalMessages.getD randIdx.val ""

/-- An achievement badge as the fallback table stores it. -/
structure Badge where
  badgeName : String
  badgeDescription : String
  iconType : String

/-- The fixed `defaultBadges` table, in the object's key order. -/
def defaultBadges : List (String × Badge) :=
  [("First Quest",
    { badgeName := "Brave First Step",
      badgeDescription := "You completed your first quest and began your adventure!",
      iconType := "boot" }),
   ("Quest Novice",
    { badgeName := "Quest Seeker",
      badgeDescription := "You completed 5 quests and are developing your adventuring skills.",
      iconType := "scroll" }),
   ("Quest Adept",
    { badgeName := "Quest Champion",
      badgeDescription := "With 10 quests completed, your reputation grows throughout the realm.",
      iconType := "shield" }),
   ("Quest Master",
    { badgeName := "Quest Legend",
      badgeDescription := "After 25 quests, bards sing tales of your legendary accomplishments!",
      iconType := "crown" }),
   ("Consistent Adventurer",
    { badgeName := "Steadfast Journeyer",
      badgeDescription := "You maintained focus for 3 days straight. Your persistence is remarkable!",
      iconType := "calendar" }),
   ("Weekly Warrior",
    { badgeName := "Hero of the Week",
      badgeDescription := "A full week of continuous progress! Few adventurers show such dedication.",
      iconType := "star" }),
   ("Point Collector",
    { badgeName := "XP Gatherer",
      badgeDescription := "You've accumulated 100 XP points through your noble deeds.",
      iconType := "gem" }),
   ("XP Hunter",
    { badgeName := "XP Virtuoso",
      badgeDescription := "With 500 XP points, your power in the realm is undeniable!",
      iconType := "trophy" })]

def badgeLookup : List (String × Badge) → String → Option Badge
  | [], _ => none
  | (k, v) :: rest, name => if k = name then some v else badgeLookup rest name

/-- `fallbackGenerateAchievementBadge`: look the achievement type up in
the fixed table (the JS property read coerces the key to a string, so a
non-string type — whose coercion matches no table key — falls through),
otherwise synthesise a generic badge interpolating the type and the
milestone. -/
def fallbackGenerateAchievementBadge (achievementType milestone : JVal) : Badge :=
  match badgeLookup defaultBadges (jToDisplayString achievementType) with
  | some b => b
  | none =>
    { badgeName := jToDisplayString achievementType ++ " Master",
      badgeDescription :=
        "You've reached the impressive milestone of " ++ jToDisplayString milestone ++ "!",
      iconType := "medal" }

/-! ## aiService: the three public gateway operations -/

/-- What a gateway operation produced: its return value (or the exception
it let escape), the state left behind, and the HTTP requests made. -/
structure GwOutcome (α : Type) where
  result : Except JsErr α
  state : ApiState
  fetches : Nat

/-- The object `transformTaskToQuest` returns:
`{questTitle, questNarrative, isAIGenerated}` (the provenance flag the
spec calls `isRemoteGenerated`). -/
structure QuestResult where
  questTitle : JVal
  questNarrative : JVal
  isAIGenerated : Bool

/-- `transformTaskToQuest`: try the backend (when enabled) via `callApi`
with the `{taskTitle, category, difficulty}` body, reading `questTitle`
and `questNarrative` off the normalised result; any throw lands in the
catch, which builds the local fallback quest.  The catch itself evaluates
`fallbackGenerateQuestTitle` then `fallbackGenerateQuestNarrative`, and an
exception either raises (non-string category) escapes to the caller.
This is the try block: backend call and field extraction, or the
configuration throw. -/
def transformAttempt (cfg : ApiConfig) (env : ApiEnv) (st : ApiState)
    (taskTitle category difficulty : JVal) : Except JsErr QuestResult × ApiState × Nat :=
  if cfg.useBackendGeneration then
    let o := callApi cfg env st "transform-task" "POST"
      (some (.obj [("taskTitle", taskTitle), ("category", category),
                   ("difficulty", difficulty)]))
    match o.result with
    | .error e => (.error e, o.state, o.fetches)
    | .ok result =>
      match jMember result "questTitle" with
      | .error e => (.error e, o.state, o.fetches)
      | .ok qt =>
        match jMember result "questNarrative" with
        | .error e => (.error e, o.state, o.fetches)
        | .ok qn =>
          (.ok { questTitle := qt, questNarrative := qn, isAIGenerated := true },
           o.state, o.fetches)
  else
    (.error (.jsError "Using local generation based on .env configuration"), st, 0)

def transformTaskToQuest (cfg : ApiConfig) (env : ApiEnv) (st : ApiState)
    (taskTitle category difficulty : JVal) (randIdx : Fin 5) : GwOutcome QuestResult :=
  match transformAttempt cfg env st taskTitle category difficulty with
  | (.ok r, st2, n) => { result := .ok r, state := st2, fetches := n }
  | (.error _, st2, n) =>
    match fallbackGenerateQuestTitle taskTitle category randIdx with
    | .error e2 => { result := .error e2, state := st2, fetches := n }
    | .ok t =>
      match fallbackGenerateQuestNarrative taskTitle category difficulty with
      | .error e2 => { result := .error e2, state := st2, fetches := n }
      | .ok nar =>
        { result := .ok { questTitle := .str t, questNarrative := .str nar,
                          isAIGenerated := false },
          state := st2, fetches := n }

/-- `generateMotivationalMessage`: when enabled, calls the backend on a
per-call unique endpoint `motivational-message?random=<r>` (the
`Math.random()` draw supplied as the oracle `randQuery`) and unwraps the
message from any of the tolerated response shapes; any throw lands in the
catch, which returns a canned message.  The returned value is a bare
string-or-value — it carries no provenance field.
This is the try block. -/
def motivationalAttempt (cfg : ApiConfig) (env : ApiEnv) (st : ApiState)
    (randQuery : String) : Except JsErr JVal × ApiState × Nat :=
  if cfg.useBackendGeneration then
    let uniqueEndpoint := "motivational-message?random=" ++ randQuery
    let o := callApi cfg env st uniqueEndpoint "GET" none
    match o.result with
    | .error e => (.error e, o.state, o.fetches)
    | .ok result =>
      if jTruthy result && jTruthy (jGetD result "motivationalMessage") then
        (.ok (jGetD result "motivationalMessage"), o.state, o.fetches)
      else if jTruthy result && jIsObjectType result then
        let viaData :=
          if jTruthy (jGetD result "data") then jGetD (jGetD result "data") "motivationalMessage"
          else jGetD result "data"
        (.ok (jOr (jOr (jOr (jGetD result "motivationalMessage") (jGetD result "message"))
                viaData)
              (.str "Your adventure awaits, brave hero!")),
         o.state, o.fetches)
      else (.ok result, o.state, o.fetches)
  else
    (.error (.jsError "Using local generation based on .env configuration"), st, 0)

def generateMotivationalMessage (cfg : ApiConfig) (env : ApiEnv) (st : ApiState)
    (randQuery : String) (randIdx : Fin 10) : GwOutcome JVal :=
  match motivationalAttempt cfg env st randQuery with
  | (.ok r, st2, n) => { result := .ok r, state := st2, fetches := n }
  | (.error _, st2, n) =>
    { result := .ok (.str (fallbackGenerateMotivationalMessage randIdx)),
      state := st2, fetches := n }

/-- Object spread `{...v}` of a value: an object's own fields; a string
spreads to index-keyed characters; other primitives spread to nothing. -/
def jSpread (v : JVal) : List (String × JVal) :=
  match v with
  | .obj fs => fs
  | .str s => (s.toList.enum).map (fun p => (toString p.1, JVal.str (String.mk [p.2])))
  | _ => []

/-- The badge fields of a fallback `Badge`, as the spread of the JS object
lists them. -/
def badgeFields (b : Badge) : List (String × JVal) :=
  [("badgeName", .str b.badgeName),
   ("badgeDescription", .str b.badgeDescription),
   ("iconType", .str b.iconType)]

/-- The object `generateAchievementBadge` returns: the spread of the
badge data plus the provenance flag. -/
structure BadgeResult where
  fields : List (String × JVal)
  isAIGenerated : Bool

/-- `generateAchievementBadge`: try the backend (when enabled) with the
`{achievementType, milestone}` body and spread the normalised result; any
throw lands in the catch, which spreads the (total) local fallback badge
with the flag false.  This is the try block. -/
def badgeAttempt (cfg : ApiConfig) (env : ApiEnv) (st : ApiState)
    (achievementType milestone : JVal) : Except JsErr BadgeResult × ApiState × Nat :=
  if cfg.useBackendGeneration then
    let o := callApi cfg env st "achievement-badge" "POST"
      (some (.obj [("achievementType", achievementType), ("milestone", milestone)]))
    match o.result with
    | .error e => (.error e, o.state, o.fetches)
    | .ok result =>
      (.ok { fields := jSpread result, isAIGenerated := true }, o.state, o.fetches)
  else
    (.error (.jsError "Using local generation based on .env configuration"), st, 0)

def generateAchievementBadge (cfg : ApiConfig) (env : ApiEnv) (st : ApiState)
    (achievementType milestone : JVal) : GwOutcome BadgeResult :=
  match badgeAttempt cfg env st achievementType milestone with
  | (.ok r, st2, n) => { result := .ok r, state := st2, fetches := n }
  | (.error _, st2, n) =>
    let fallbackBadge := fallbackGenerateAchievementBadge achievementType milestone
    { result := .ok { fields := badgeFields fallbackBadge, isAIGenerated := false },
      state := st2, fetches := n }

/-- Modelled from the spec: the structured health payload the spec's
external-interface table gives for `GET /api/health`
(`{status, message, version, endpoints[]}`).  The source's reachability
probe performs no such structural validation; this definition exists only
to compare the spec's wording with the code's behaviour. -/
def isHealthPayloadShape (v : JVal) : Bool :=
  match v with
  | .obj fs =>
    (jLookup fs "status").isSome && (jLookup fs "message").isSome &&
      (jLookup fs "version").isSome &&
      (match jLookup fs "endpoints" with
       | some (.arr _) => true
       | _ => false)
  | _ => false

/-! ## Concrete worlds used by witnesses and counterexamples -/

/-- A candidate-generation environment with nothing configured. -/
def urlEnvC : UrlEnv :=
  { configuredUrl := none, platformOS := "android", devServerHost := none }

/-- A discovery environment with no cached URL, no device connectivity and
every probe failing. -/
def denvC : DiscoverEnv :=
  { cachedUrlRead := .ok none, isConnected := false,
    probe := fun _ => .networkError, urlEnv := urlEnvC }

/-- A call environment in which every remote interaction fails. -/
def envOff : ApiEnv := { now := 0, fetchOutcome := .networkError, denv := denvC }

/-- Empty cache, no discovered backend URL. -/
def stEmpty : ApiState := { storage := fun _ => none, discoveredUrl := none }

/-- Remote generation disabled by configuration. -/
def cfgOff : ApiConfig :=
  { useBackendGeneration := false, enableApiCache := true,
    cacheExpiry := defaultCacheExpiryMs }

/-- Remote generation enabled, caching enabled, default TTL. -/
def cfgOn : ApiConfig :=
  { useBackendGeneration := true, enableApiCache := true,
    cacheExpiry := defaultCacheExpiryMs }

/-- Empty cache with a discovered backend URL already held. -/
def stWithUrl : ApiState :=
  { storage := fun _ => none, discoveredUrl := some "http://localhost:3000/api" }

/-- A call environment whose main fetch succeeds with a motivational
message payload. -/
def envMsg : ApiEnv :=
  { now := 1000,
    fetchOutcome := .httpResponse true
      (some (.obj [("success", .bool true), ("motivationalMessage", .str "Go forth!")])),
    denv := denvC }

/-- A call environment whose main fetch throws a network error. -/
def envNetFail : ApiEnv := { now := 0, fetchOutcome := .networkError, denv := denvC }

/-! ## Helper lemmas -/

/-- The local quest-title fallback never throws on a string category. -/
lemma fallbackGenerateQuestTitle_str (t : JVal) (c : String) (r : Fin 5) :
    fallbackGenerateQuestTitle t (.str c) r =
      .ok ((questTitleTemplates (questTheme (String.mk (c.data.map Char.toLower)))
        (capitalize t)).getD r.val "") := rfl

/-- The local quest-narrative fallback never throws on a string category. -/
lemma fallbackGenerateQuestNarrative_str (t : JVal) (c : String) (d : JVal) :
    ∃ s, fallbackGenerateQuestNarrative t (.str c) d = .ok s :=
  ⟨_, rfl⟩

/-- `List.getD` with an in-range index returns a member of the list. -/
lemma getD_mem_strings (l : List String) : ∀ i, i < l.length → l.getD i "" ∈ l := by
  induction l with
  | nil => intro i h; simp at h
  | cons a as ih =>
    intro i h
    cases i with
    | zero => simp [List.getD]
    | succ j =>
      simp only [List.getD_cons_succ]
      exact List.mem_cons_of_mem _ (ih j (by simpa using h))

lemma mem_dedupFirstAux {x : String} :
    ∀ {l seen : List String}, x ∈ dedupFirstAux l seen ↔ x ∈ l ∧ x ∉ seen := by
  intro l
  induction l with
  | nil => intro seen; simp [dedupFirstAux]
  | cons a as ih =>
    intro seen
    by_cases h : a ∈ seen
    · simp only [dedupFirstAux, if_pos h, ih, List.mem_cons]
      constructor
      · rintro ⟨hx, hns⟩; exact ⟨Or.inr hx, hns⟩
      · rintro ⟨hx | hx, hns⟩
        · exact absurd (hx ▸ h) hns
        · exact ⟨hx, hns⟩
    · simp only [dedupFirstAux, if_neg h, List.mem_cons, ih]
      constructor
      · rintro (rfl | ⟨hx, hns⟩)
        · exact ⟨Or.inl rfl, h⟩
        · exact ⟨Or.inr hx, fun hm => hns (by simp [hm])⟩
      · rintro ⟨rfl | hx, hns⟩
        · exact Or.inl rfl
        · by_cases hax : x = a
          · exact Or.inl hax
          · exact Or.inr ⟨hx, by simp [hax, hns]⟩

lemma dedupFirstAux_sublist : ∀ (l seen : List String), List.Sublist (dedupFirstAux l seen) l := by
  intro l
  induction l with
  | nil => intro seen; simp [dedupFirstAux]
  | cons a as ih =>
    intro seen
    by_cases h : a ∈ seen
    · simpa only [dedupFirstAux, if_pos h] using (ih seen).cons a
    · simpa only [dedupFirstAux, if_neg h] using (ih (a :: seen)).cons₂ a

lemma dedupFirstAux_nodup : ∀ (l seen : List String), (dedupFirstAux l seen).Nodup := by
  intro l
  induction l with
  | nil => intro seen; simp [dedupFirstAux]
  | cons a as ih =>
    intro seen
    by_cases h : a ∈ seen
    · simpa only [dedupFirstAux, if_pos h] using ih seen
    · simp only [dedupFirstAux, if_neg h, List.nodup_cons]
      refine ⟨fun hmem => ?_, ih _⟩
      exact (mem_dedupFirstAux.mp hmem).2 (List.mem_cons_self a seen)

lemma dedupFirst_nodup (l : List String) : (dedupFirst l).Nodup :=
  dedupFirstAux_nodup l []

lemma dedupFirst_sublist (l : List String) : List.Sublist (dedupFirst l) l :=
  dedupFirstAux_sublist l []

lemma mem_dedupFirst {x : String} {l : List String} : x ∈ dedupFirst l ↔ x ∈ l := by
  simp [dedupFirst, mem_dedupFirstAux]

/-! ## Theorems about the claims -/

/-- **C7.** For every configuration and platform, the candidate generator
returns a duplicate-free list of base URLs; the list is a sublist of the
raw emission order (so first-seen order is preserved) with exactly the raw
list's members; and whenever an explicit override URL is configured (set
and non-empty), the first element of the list equals that override. -/
theorem candidateGenerator_c7 :
    ∀ env : UrlEnv,
      (getPossibleServerUrls env).Nodup ∧
      List.Sublist (getPossibleServerUrls env) (possibleServerUrlsRaw env) ∧
      (∀ x, x ∈ getPossibleServerUrls env ↔ x ∈ possibleServerUrlsRaw env) ∧
      (∀ u, env.configuredUrl = some u → u ≠ "" →
        (getPossibleServerUrls env).head? = some u) := by
  intro env
  refine ⟨dedupFirst_nodup _, dedupFirst_sublist _, fun x => mem_dedupFirst, ?_⟩
  intro u hu hne
  simp [getPossibleServerUrls, possibleServerUrlsRaw, hu, hne, dedupFirst, dedupFirstAux]

/-- Witness for C7 at a concrete environment with a configured override. -/
theorem candidateGenerator_c7_witness :
    (getPossibleServerUrls
      { configuredUrl := some "http://cfg-host:9000/api", platformOS := "android",
        devServerHost := none }).head? = some "http://cfg-host:9000/api" :=
  (candidateGenerator_c7 _).2.2.2 "http://cfg-host:9000/api" rfl (by decide)

/-- **C6 (counterexample).** The probe's "reachable" verdict does not
require the body to be the structured health payload: a success status
whose body is JSON but not of the spec's `{status, message, version,
endpoints[]}` shape still yields `true`. -/
theorem reachabilityProbe_c6_counterexample :
    isUrlReachable "http://localhost:3000/api"
        (.httpResponse true (some (.obj [("ok", .bool true)]))) = true ∧
    isHealthPayloadShape (.obj [("ok", .bool true)]) = false :=
  ⟨rfl, rfl⟩

/-- **C6 (amended).** The probe returns `true` exactly when the HTTP
status indicates success and the body parses as JSON (no structural
validation of the payload is performed); every network error, non-success
status, or body-parse failure yields `false`, and every error thrown
inside the probe's body is caught — the probe returns `false` rather than
propagating it. -/
theorem reachabilityProbe_c6 :
    (∀ url o, isUrlReachable url o = true ↔ ∃ body, o = .httpResponse true (some body)) ∧
    (∀ url o e, isUrlReachableBody url o = .error e → isUrlReachable url o = false) := by
  constructor
  · intro url o
    cases o with
    | networkError => simp [isUrlReachable, isUrlReachableBody]
    | httpResponse ok body =>
      cases ok <;> cases body <;> simp [isUrlReachable, isUrlReachableBody]
  · intro url o e herr
    cases o with
    | networkError => simp [isUrlReachable, isUrlReachableBody]
    | httpResponse ok body =>
      cases ok <;> cases body <;> simp_all [isUrlReachable, isUrlReachableBody]

/-- Witness for C6 at a concrete probe outcome with a thrown error. -/
theorem reachabilityProbe_c6_witness :
    isUrlReachable "http://localhost:3000/api" .networkError = false :=
  reachabilityProbe_c6.2 "http://localhost:3000/api" .networkError
    (.jsError "Network request failed") rfl

/-- **C8.** When no cached URL yields a reachable verdict and the
device-level connectivity check reports no network, the Locator returns
`null` without generating or probing any candidate URL (and without
persisting anything). -/
theorem locatorOffline_c8 (env : DiscoverEnv)
    (hcache : ∀ u, env.cachedUrlRead = .ok (some u) → isUrlReachable u (env.probe u) = false)
    (hnet : env.isConnected = false) :
    (discoverBackendUrl env).result = none ∧
    (discoverBackendUrl env).candidateUrls = [] ∧
    (discoverBackendUrl env).candidatesProbed = [] ∧
    (discoverBackendUrl env).cacheWrite = none := by
  unfold discoverBackendUrl
  rcases hr : env.cachedUrlRead with e | u
  · simp [hr, hnet]
  · rcases u with _ | u
    · simp [hr, hnet]
    · by_cases hu : u = ""
      · simp [hr, hu, hnet]
      · have := hcache u hr
        simp [hr, hu, hnet, this]

/-- Witness for C8 at a concrete offline environment with no cached URL. -/
theorem locatorOffline_c8_witness :
    (discoverBackendUrl
      { cachedUrlRead := .ok none, isConnected := false,
        probe := fun _ => .networkError,
        urlEnv := { configuredUrl := none, platformOS := "android",
                    devServerHost := none } }).result = none :=
  (locatorOffline_c8 _ (fun u h => by simp at h) rfl).1

/-- **C1 (counterexample).** The transform-task gateway operation does
propagate an exception for an absent (`undefined`) category: with remote
generation disabled (one of the listed pipeline outcomes) the fallback's
own `category.toLowerCase()` throws a TypeError that escapes to the
caller. -/
theorem gatewayTotality_c1_counterexample :
    (transformTaskToQuest cfgOff envOff stEmpty (.str "Walk the dog") .undefined (.str "normal")
      ⟨0, by decide⟩).result = .error (.typeError "toLowerCase is not a function") := rfl

/-- **C1 (amended).** For every input and every outcome of the remote
pipeline, each gateway operation returns a result and never propagates an
exception — for motivational-message and achievement-badge with arbitrary
(including absent or non-string) arguments, and for transform-task
whenever its category argument is a string (a non-string category makes
the local fallback itself throw). -/
theorem gatewayTotality_c1 :
    (∀ cfg env st (t : JVal) (c : String) (d : JVal) (r : Fin 5),
      ∃ q, (transformTaskToQuest cfg env st t (.str c) d r).result = .ok q) ∧
    (∀ cfg env st rq ri,
      ∃ m, (generateMotivationalMessage cfg env st rq ri).result = .ok m) ∧
    (∀ cfg env st (a mi : JVal),
      ∃ b, (generateAchievementBadge cfg env st a mi).result = .ok b) := by
  refine ⟨?_, ?_, ?_⟩
  · intro cfg env st t c d r
    unfold transformTaskToQuest
    rcases h : transformAttempt cfg env st t (.str c) d with ⟨res, st2, n⟩
    cases res with
    | ok q => exact ⟨q, rfl⟩
    | error e =>
      obtain ⟨s, hs⟩ := fallbackGenerateQuestNarrative_str t c d
      dsimp only
      rw [fallbackGenerateQuestTitle_str, hs]
      exact ⟨_, rfl⟩
  · intro cfg env st rq ri
    unfold generateMotivationalMessage
    rcases h : motivationalAttempt cfg env st rq with ⟨res, st2, n⟩
    cases res with
    | ok m => exact ⟨m, rfl⟩
    | error e => exact ⟨_, rfl⟩
  · intro cfg env st a mi
    unfold generateAchievementBadge
    rcases h : badgeAttempt cfg env st a mi with ⟨res, st2, n⟩
    cases res with
    | ok b => exact ⟨b, rfl⟩
    | error e => exact ⟨_, rfl⟩

/-- **C2 (counterexample).** With remote generation disabled, the
motivational-message operation returns a bare string: reading the
provenance flag off the returned value (under either the spec's name
`isRemoteGenerated` or the code's name `isAIGenerated`) yields
`undefined`, not `false` — the result carries no provenance flag at
all. -/
theorem gatewayDisabled_c2_counterexample :
    (generateMotivationalMessage cfgOff envOff stEmpty "0.123" ⟨0, by decide⟩).result =
      .ok (.str "The path to greatness is paved with completed quests!") ∧
    jMember (.str "The path to greatness is paved with completed quests!")
      "isRemoteGenerated" = .ok .undefined ∧
    jMember (.str "The path to greatness is paved with completed quests!")
      "isAIGenerated" = .ok .undefined :=
  ⟨rfl, rfl, rfl⟩

/-- **C2 (amended).** While remote generation is disabled, every gateway
call performs zero HTTP requests and leaves the state untouched;
transform-task (for a string category) and achievement-badge return
results whose provenance flag (`isAIGenerated` in the code, the spec's
`isRemoteGenerated`) is `false`; motivational-message returns a string
drawn from the fixed local message list — it carries no provenance
flag. -/
theorem gatewayDisabled_c2 (cfg : ApiConfig) (env : ApiEnv) (st : ApiState)
    (hoff : cfg.useBackendGeneration = false) :
    (∀ (t : JVal) (c : String) (d : JVal) (r : Fin 5),
      ∃ q, transformTaskToQuest cfg env st t (.str c) d r =
          { result := .ok q, state := st, fetches := 0 } ∧ q.isAIGenerated = false) ∧
    (∀ (rq : String) (ri : Fin 10),
      ∃ m, generateMotivationalMessage cfg env st rq ri =
          { result := .ok (.str m), state := st, fetches := 0 } ∧
        m ∈ motivationalMessages) ∧
    (∀ (a mi : JVal),
      ∃ b, generateAchievementBadge cfg env st a mi =
          { result := .ok b, state := st, fetches := 0 } ∧ b.isAIGenerated = false) := by
  refine ⟨?_, ?_, ?_⟩
  · intro t c d r
    obtain ⟨s, hs⟩ := fallbackGenerateQuestNarrative_str t c d
    unfold transformTaskToQuest transformAttempt
    rw [hoff]
    dsimp only
    rw [fallbackGenerateQuestTitle_str, hs]
    exact ⟨_, rfl, rfl⟩
  · intro rq ri
    unfold generateMotivationalMessage motivationalAttempt
    rw [hoff]
    dsimp only
    refine ⟨fallbackGenerateMotivationalMessage ri, rfl, ?_⟩
    have hlen : ri.val < motivationalMessages.length := by
      simp [motivationalMessages, ri.isLt]
    exact getD_mem_strings motivationalMessages ri.val hlen
  · intro a mi
    unfold generateAchievementBadge badgeAttempt
    rw [hoff]
    exact ⟨_, rfl, rfl⟩

/-- Witness for C2 at a concrete disabled configuration. -/
theorem gatewayDisabled_c2_witness :
    (transformTaskToQuest cfgOff envOff stEmpty (.str "Walk") (.str "work") (.str "mini")
      ⟨0, by decide⟩).fetches = 0 := by
  obtain ⟨q, hq, _⟩ := (gatewayDisabled_c2 cfgOff envOff stEmpty rfl).1 (.str "Walk") "work"
    (.str "mini") ⟨0, by decide⟩
  rw [hq]

/-- A pattern starts every list it is a prefix of. -/
lemma listStartsWith_self_append (p rest : List Char) :
    listStartsWith p (p ++ rest) = true := by
  induction p with
  | nil => rfl
  | cons a as ih => simp [listStartsWith, ih]

/-- A pattern occurs in any list it heads. -/
lemma listContainsSeq_self_append (p ys : List Char) :
    listContainsSeq p (p ++ ys) = true := by
  cases p with
  | nil => cases ys <;> simp [listContainsSeq, listStartsWith]
  | cons a as =>
    have h := listStartsWith_self_append (a :: as) ys
    rw [List.cons_append] at h
    simp [listContainsSeq, h]

lemma listContainsSeq_self (p : List Char) : listContainsSeq p p = true := by
  simpa using listContainsSeq_self_append p []

/-- Occurrence is preserved by prepending. -/
lemma listContainsSeq_append_left (p xs : List Char) {ys : List Char}
    (h : listContainsSeq p ys = true) : listContainsSeq p (xs ++ ys) = true := by
  induction xs with
  | nil => simpa using h
  | cons a as ih => simp [listContainsSeq, ih]

/-- Occurrence is preserved by prepending one element. -/
lemma listContainsSeq_cons (p : List Char) (a : Char) {ys : List Char}
    (h : listContainsSeq p ys = true) : listContainsSeq p (a :: ys) = true := by
  simp [listContainsSeq, h]

/-- Every one of the five quest-title templates contains the capitalised
task title as a substring. -/
lemma questTitleTemplates_include (theme cap : String) (r : Fin 5) :
    strIncludes ((questTitleTemplates theme cap).getD r.val "") cap = true := by
  have step : ∀ s : String, ∀ tail : List Char,
      listContainsSeq cap.data tail = true →
      listContainsSeq cap.data (s.data ++ tail) = true :=
    fun s tail h => listContainsSeq_append_left _ _ h
  have base : listContainsSeq cap.data cap.data = true := listContainsSeq_self _
  have h0 : strIncludes ("The " ++ theme ++ " " ++ cap) cap = true := by
    simp only [strIncludes, String.toList, String.data_append, List.append_assoc]
    exact step _ _ (step _ _ (step _ _ base))
  have h1 : strIncludes (theme ++ " Mission: " ++ cap) cap = true := by
    simp only [strIncludes, String.toList, String.data_append, List.append_assoc]
    exact step _ _ (step _ _ base)
  have h2 : strIncludes (theme ++ "'s Call: " ++ cap) cap = true := by
    simp only [strIncludes, String.toList, String.data_append, List.append_assoc]
    exact step _ _ (step _ _ base)
  have h3 : strIncludes ("The " ++ theme ++ " Seeker's " ++ cap) cap = true := by
    simp only [strIncludes, String.toList, String.data_append, List.append_assoc]
    exact step _ _ (step _ _ (step _ _ base))
  have h4 : strIncludes (cap ++ " of the " ++ theme ++ " Realm") cap = true := by
    simp only [strIncludes, String.toList, String.data_append, List.append_assoc]
    exact listContainsSeq_self_append _ _
  match r with
  | ⟨0, _⟩ => exact h0
  | ⟨1, _⟩ => exact h1
  | ⟨2, _⟩ => exact h2
  | ⟨3, _⟩ => exact h3
  | ⟨4, _⟩ => exact h4

/-- Cache hit: with remote generation on, caching on, a cacheable
endpoint and a fresh entry under the request's key, `callApi` returns the
entry's data, changes nothing and performs no HTTP request. -/
lemma callApi_cache_hit (cfg : ApiConfig) (env : ApiEnv) (st : ApiState)
    (endpoint method : String) (body : Option JVal) (data : JVal) (timestamp : Nat)
    (hon : cfg.useBackendGeneration = true) (hc : cfg.enableApiCache = true)
    (hep : endpoint ≠ "motivational-message")
    (hentry : st.storage (cacheKeyFor endpoint body) = some (.entry data timestamp))
    (hfresh : (env.now : Int) - (timestamp : Int) < (cfg.cacheExpiry : Int)) :
    callApi cfg env st endpoint method body =
      { result := .ok data, state := st, fetches := 0 } := by
  unfold callApi
  rw [hon, hc]
  simp [hep, hentry, hfresh]

/-- Cache expiry: with a stale entry (age at least the TTL) under the
request's key, `callApi` performs the main fetch (one HTTP request, the
backend URL being held), behaves on its result exactly as if the entry
were absent, and never deletes the stale entry — it is either left in
place or overwritten by a fresh entry timestamped now. -/
lemma callApi_cache_expired (cfg : ApiConfig) (env : ApiEnv) (st : ApiState)
    (endpoint method : String) (body : Option JVal) (data : JVal) (timestamp : Nat) (u : String)
    (hon : cfg.useBackendGeneration = true) (hc : cfg.enableApiCache = true)
    (hep : endpoint ≠ "motivational-message")
    (hurl : st.discoveredUrl = some u)
    (hentry : st.storage (cacheKeyFor endpoint body) = some (.entry data timestamp))
    (hstale : (cfg.cacheExpiry : Int) ≤ (env.now : Int) - (timestamp : Int)) :
    (callApi cfg env st endpoint method body).fetches = 1 ∧
    (callApi cfg env st endpoint method body).result =
      (callApi cfg env
        { st with storage := fun k =>
            if k = cacheKeyFor endpoint body then none else st.storage k }
        endpoint method body).result ∧
    ((callApi cfg env st endpoint method body).state.storage (cacheKeyFor endpoint body) =
        some (.entry data timestamp) ∨
      ∃ d2, (callApi cfg env st endpoint method body).state.storage
          (cacheKeyFor endpoint body) = some (.entry d2 env.now)) := by
  have hfre : ¬ ((env.now : Int) - (timestamp : Int) < (cfg.cacheExpiry : Int)) :=
    not_lt.mpr hstale
  unfold callApi
  rw [hon, hc]
  cases hfo : env.fetchOutcome with
  | networkError => simp [hep, hentry, hfre, hurl]
  | httpResponse ok bodyJson =>
    cases ok with
    | false => simp [hep, hentry, hfre, hurl]
    | true =>
      cases bodyJson with
      | none => simp [hep, hentry, hfre, hurl]
      | some result =>
        rcases hjm : jMember result "success" with e | succ
        · simp [hep, hentry, hfre, hurl, hjm]
        · rcases hex : extractResponseData result with e2 | d2 <;>
            rcases succ with _ | _ | b | _ | _ | _ | _ <;>
            first
            | (cases b <;> simp [hep, hentry, hfre, hurl, hjm, hex, updStorage])
            | simp [hep, hentry, hfre, hurl, hjm, hex, updStorage]

/-- **C3.** For a cacheable call with caching enabled and a stored entry
with timestamp `t` under the request's key: the entry is returned with no
network call if `now - t < ttl`; if `now - t >= ttl` the call performs a
fresh remote attempt (one HTTP request), behaves exactly as if the entry
were absent, and the expired entry is not deleted — only ignored or later
overwritten; the default ttl is 24 hours in milliseconds. -/
theorem cacheTTL_c3 (cfg : ApiConfig) (env : ApiEnv) (st : ApiState)
    (endpoint method : String) (body : Option JVal) (data : JVal) (timestamp : Nat) (u : String)
    (hon : cfg.useBackendGeneration = true) (hc : cfg.enableApiCache = true)
    (hep : endpoint ≠ "motivational-message")
    (hurl : st.discoveredUrl = some u)
    (hentry : st.storage (cacheKeyFor endpoint body) = some (.entry data timestamp)) :
    ((env.now : Int) - (timestamp : Int) < (cfg.cacheExpiry : Int) →
      callApi cfg env st endpoint method body =
        { result := .ok data, state := st, fetches := 0 }) ∧
    ((cfg.cacheExpiry : Int) ≤ (env.now : Int) - (timestamp : Int) →
      (callApi cfg env st endpoint method body).fetches = 1 ∧
      (callApi cfg env st endpoint method body).result =
        (callApi cfg env
          { st with storage := fun k =>
              if k = cacheKeyFor endpoint body then none else st.storage k }
          endpoint method body).result ∧
      ((callApi cfg env st endpoint method body).state.storage (cacheKeyFor endpoint body) =
          some (.entry data timestamp) ∨
        ∃ d2, (callApi cfg env st endpoint method body).state.storage
            (cacheKeyFor endpoint body) = some (.entry d2 env.now))) ∧
    defaultCacheExpiryMs = 24 * 60 * 60 * 1000 := by
  refine ⟨?_, ?_, rfl⟩
  · intro hfresh
    exact callApi_cache_hit cfg env st endpoint method body data timestamp hon hc hep
      hentry hfresh
  · intro hstale
    exact callApi_cache_expired cfg env st endpoint method body data timestamp u hon hc hep
      hurl hentry hstale

/-- Witness for C3: a concrete cached entry written at epoch 0 is served
at 23h59m (fresh) with no fetch. -/
theorem cacheTTL_c3_witness :
    callApi cfgOn
      { now := 23 * 60 * 60 * 1000 + 59 * 60 * 1000, fetchOutcome := .networkError,
        denv := denvC }
      { storage := fun k =>
          if k = cacheKeyFor "transform-task" none then some (.entry (.str "cached") 0) else none,
        discoveredUrl := some "http://localhost:3000/api" }
      "transform-task" "POST" none =
      { result := .ok (.str "cached"),
        state :=
          { storage := fun k =>
              if k = cacheKeyFor "transform-task" none then some (.entry (.str "cached") 0)
              else none,
            discoveredUrl := some "http://localhost:3000/api" },
        fetches := 0 } :=
  (cacheTTL_c3 cfgOn
    { now := 23 * 60 * 60 * 1000 + 59 * 60 * 1000, fetchOutcome := .networkError,
      denv := denvC }
    { storage := fun k =>
        if k = cacheKeyFor "transform-task" none then some (.entry (.str "cached") 0) else none,
      discoveredUrl := some "http://localhost:3000/api" }
    "transform-task" "POST" none (.str "cached") 0 "http://localhost:3000/api"
    rfl rfl (by decide) rfl (by simp)).1 (by decide)

/-- **C10.** Cache round-trip consistency: after a successful remote
response on a cacheable call (caching enabled, nothing previously stored
for the key), the value stored in the cache entry is exactly
`extractResponseData` of the response — the already-normalised data — and
the call returns that same value; any later call with the same endpoint
and payload within the TTL is served from that entry and returns exactly
the value the original call returned, with no HTTP request. -/
theorem cacheRoundTrip_c10 (cfg : ApiConfig) (env : ApiEnv) (st : ApiState)
    (endpoint method : String) (body : Option JVal) (u : String) (respBody d : JVal)
    (hon : cfg.useBackendGeneration = true) (hc : cfg.enableApiCache = true)
    (hep : endpoint ≠ "motivational-message")
    (hmiss : st.storage (cacheKeyFor endpoint body) = none)
    (hurl : st.discoveredUrl = some u)
    (hfetch : env.fetchOutcome = .httpResponse true (some respBody))
    (hsucc : jMember respBody "success" = .ok .undefined ∨
             jMember respBody "success" = .ok (.bool true))
    (hex : extractResponseData respBody = .ok d) :
    callApi cfg env st endpoint method body =
      { result := .ok d,
        state := { st with storage := updStorage st.storage (cacheKeyFor endpoint body) (.entry d env.now) },
        fetches := 1 } ∧
    ∀ env2 : ApiEnv, (env2.now : Int) - (env.now : Int) < (cfg.cacheExpiry : Int) →
      callApi cfg env2 (callApi cfg env st endpoint method body).state endpoint method body =
        { result := .ok d,
          state := (callApi cfg env st endpoint method body).state,
          fetches := 0 } := by
  have h1 : callApi cfg env st endpoint method body =
      { result := .ok d,
        state := { st with storage := updStorage st.storage (cacheKeyFor endpoint body) (.entry d env.now) },
        fetches := 1 } := by
    unfold callApi
    rw [hon, hc, hurl, hfetch]
    rcases hsucc with h | h <;> simp [hep, hmiss, h, hex, hurl]
  refine ⟨h1, ?_⟩
  intro env2 hfresh
  rw [h1]
  exact callApi_cache_hit cfg env2 _ endpoint method body d env.now hon hc hep
    (by simp [updStorage]) hfresh

/-- Witness for C10: a concrete successful transform-task call caches the
normalised payload and a second call one hour later is served from the
cache. -/
theorem cacheRoundTrip_c10_witness :
    callApi cfgOn
      { now := 5000,
        fetchOutcome := .httpResponse true
          (some (.obj [("success", .bool true), ("questTitle", .str "T"),
                       ("questNarrative", .str "N")])),
        denv := denvC }
      stWithUrl "transform-task" "POST" none =
      { result := .ok (.obj [("questTitle", .str "T"), ("questNarrative", .str "N")]),
        state := { stWithUrl with storage := updStorage stWithUrl.storage (cacheKeyFor "transform-task" none) (.entry (.obj [("questTitle", .str "T"), ("questNarrative", .str "N")]) 5000) },
        fetches := 1 } :=
  (cacheRoundTrip_c10 cfgOn
    { now := 5000,
      fetchOutcome := .httpResponse true
        (some (.obj [("success", .bool true), ("questTitle", .str "T"),
                     ("questNarrative", .str "N")])),
      denv := denvC }
    stWithUrl "transform-task" "POST" none "http://localhost:3000/api"
    (.obj [("success", .bool true), ("questTitle", .str "T"), ("questNarrative", .str "N")])
    (.obj [("questTitle", .str "T"), ("questNarrative", .str "N")])
    rfl rfl (by decide) rfl rfl rfl (Or.inr rfl) rfl).1

/-- **C4 (counterexample).** When the remote transform-task call fails,
the fallback result's `questNarrative` does not contain the interpolated
task name: the narrative is built only from the category sentence and the
difficulty modifier. -/
theorem transformFallback_c4_counterexample :
    (transformTaskToQuest cfgOn envNetFail stWithUrl (.str "Walk the dog") (.str "work")
        (.str "normal") ⟨0, by decide⟩).result =
      .ok { questTitle := .str "The Guild Walk the dog",
            questNarrative := .str "The Guild requires your expertise. Complete this task to gain favor with the Guild Masters. A worthy challenge that will test your resolve and determination.",
            isAIGenerated := false } ∧
    strIncludes "The Guild requires your expertise. Complete this task to gain favor with the Guild Masters. A worthy challenge that will test your resolve and determination."
      "Walk the dog" = false :=
  ⟨rfl, by decide⟩

/-- **C4 (amended).** For every transform-task call in which the remote
call fails with a network error (remote generation on, nothing cached for
the request, a backend URL held), the returned result is non-null
(`.ok`), its provenance flag (`isAIGenerated`) is false, and its
`questTitle` string contains the interpolated (capitalised) task name;
the `questNarrative` is built from the category narrative and difficulty
modifier only. -/
theorem transformFallback_c4 (cfg : ApiConfig) (env : ApiEnv) (st : ApiState)
    (t c : String) (d : JVal) (r : Fin 5) (u : String)
    (hon : cfg.useBackendGeneration = true)
    (hurl : st.discoveredUrl = some u)
    (hmiss : st.storage (cacheKeyFor "transform-task"
      (some (.obj [("taskTitle", .str t), ("category", .str c),
                   ("difficulty", d)]))) = none)
    (hfetch : env.fetchOutcome = .networkError) :
    ∃ title nar,
      (transformTaskToQuest cfg env st (.str t) (.str c) d r).result =
        .ok { questTitle := .str title, questNarrative := .str nar,
              isAIGenerated := false } ∧
      strIncludes title (capitalize (.str t)) = true := by
  obtain ⟨s, hs⟩ := fallbackGenerateQuestNarrative_str (.str t) c d
  refine ⟨(questTitleTemplates (questTheme (String.mk (c.data.map Char.toLower)))
      (capitalize (.str t))).getD r.val "",
    s, ?_, questTitleTemplates_include _ _ r⟩
  unfold transformTaskToQuest transformAttempt callApi
  rw [hon, hurl, hfetch]
  simp [hmiss, fallbackGenerateQuestTitle_str, hs]

/-- Witness for C4 at a concrete failing call. -/
theorem transformFallback_c4_witness :
    (∃ title nar,
      (transformTaskToQuest cfgOn envNetFail stWithUrl (.str "Walk the dog") (.str "work")
          (.str "normal") ⟨1, by decide⟩).result =
        .ok { questTitle := .str title, questNarrative := .str nar,
              isAIGenerated := false } ∧
      strIncludes title (capitalize (.str "Walk the dog")) = true) :=
  transformFallback_c4 cfgOn envNetFail stWithUrl "Walk the dog" "work" (.str "normal")
    ⟨1, by decide⟩ "http://localhost:3000/api" rfl rfl rfl rfl

/-- **C9.** For achievement type "First Quest" with milestone 1, the local
fallback badge exactly equals the fixed table entry; and when remote
generation is enabled but no backend is discoverable (and nothing is
cached for the request), the achievement-badge operation returns exactly
that badge's fields with the provenance flag false. -/
theorem achievementFallback_c9 :
    fallbackGenerateAchievementBadge (.str "First Quest") (.num 1) =
      { badgeName := "Brave First Step",
        badgeDescription := "You completed your first quest and began your adventure!",
        iconType := "boot" } ∧
    ∀ cfg env st, cfg.useBackendGeneration = true →
      st.discoveredUrl = none →
      (discoverBackendUrl env.denv).result = none →
      st.storage (cacheKeyFor "achievement-badge"
        (some (.obj [("achievementType", .str "First Quest"),
                     ("milestone", .num 1)]))) = none →
      (generateAchievementBadge cfg env st (.str "First Quest") (.num 1)).result =
        .ok { fields :=
                [("badgeName", .str "Brave First Step"),
                 ("badgeDescription",
                  .str "You completed your first quest and began your adventure!"),
                 ("iconType", .str "boot")],
              isAIGenerated := false } := by
  refine ⟨rfl, ?_⟩
  intro cfg env st hon hurl hdisc hmiss
  unfold generateAchievementBadge badgeAttempt callApi
  rw [hon, hurl]
  simp [hmiss, hdisc]
  rfl

/-- Witness for C9 at a concrete no-connectivity world. -/
theorem achievementFallback_c9_witness :
    (generateAchievementBadge cfgOn envOff stEmpty (.str "First Quest") (.num 1)).result =
      .ok { fields :=
              [("badgeName", .str "Brave First Step"),
               ("badgeDescription",
                .str "You completed your first quest and began your adventure!"),
               ("iconType", .str "boot")],
            isAIGenerated := false } :=
  achievementFallback_c9.2 cfgOn envOff stEmpty rfl rfl rfl rfl

/-- **C5.** The code states (in its own comments) that motivational
messages are never cached, yet a successful motivational-message call
writes a cache entry: the endpoint string carries a unique
`?random=` query, so the `endpoint !== 'motivational-message'` guard
passes and the persisted cache storage is changed. -/
theorem motivationalCache_c5_bug :
    ((generateMotivationalMessage cfgOn envMsg stWithUrl "0.5" ⟨0, by decide⟩).state.storage
        "taskflick_cache_motivational-message?random=0.5_") =
      some (.entry (.obj [("motivationalMessage", .str "Go forth!")]) 1000) ∧
    stWithUrl.storage "taskflick_cache_motivational-message?random=0.5_" = none ∧
    (generateMotivationalMessage cfgOn envMsg stWithUrl "0.5" ⟨0, by decide⟩).result =
      .ok (.str "Go forth!") :=
  ⟨rfl, rfl, rfl⟩

end TaskFlix
